import Mathlib

/-!
Verification of the pure computational core of
`P1S_Python_Examples.py`: the print-volume fit calculator
`calculate_print_volume` and the static material-profile lookup
`get_material_settings`.  Python floats are modelled as rationals (ℚ);
all arithmetic in the source is exact on the inputs considered.
-/

/-- A triple of millimeter dimensions (width, depth, height), as used both
for the `model_dimensions_mm` and the `clearance_mm` nested dictionaries. -/
structure Dims3 where
  width : ℚ
  depth : ℚ
  height : ℚ
  deriving DecidableEq, Repr

/-- The record returned by `calculate_print_volume` (the Python dict with
keys `fits`, `model_dimensions_mm`, `model_volume_mm3`, `build_volume_mm3`,
`utilization_percent`, `clearance_mm`). -/
structure FitResult where
  fits : Bool
  model_dimensions_mm : Dims3
  model_volume_mm3 : ℚ
  build_volume_mm3 : ℚ
  utilization_percent : ℚ
  clearance_mm : Dims3
  deriving DecidableEq, Repr

/-- `BUILD_VOLUME_WIDTH = 256` (local constant of `calculate_print_volume`). -/
def BUILD_VOLUME_WIDTH : ℚ := 256

/-- `BUILD_VOLUME_DEPTH = 256` (local constant of `calculate_print_volume`). -/
def BUILD_VOLUME_DEPTH : ℚ := 256

/-- `BUILD_VOLUME_HEIGHT = 256` (local constant of `calculate_print_volume`). -/
def BUILD_VOLUME_HEIGHT : ℚ := 256

/-- Shallow embedding of `calculate_print_volume(width_mm, depth_mm,
height_mm)` from `P1S_Python_Examples.py`, lines 258-300.  The build
envelope is fixed inside the function body; the function is pure and
returns a fresh record. -/
def calculate_print_volume (width_mm depth_mm height_mm : ℚ) : FitResult :=
  let fits : Bool := decide (width_mm ≤ BUILD_VOLUME_WIDTH) &&
                     decide (depth_mm ≤ BUILD_VOLUME_DEPTH) &&
                     decide (height_mm ≤ BUILD_VOLUME_HEIGHT)
  let model_volume := width_mm * depth_mm * height_mm
  let build_volume := BUILD_VOLUME_WIDTH * BUILD_VOLUME_DEPTH * BUILD_VOLUME_HEIGHT
  let utilization_percent := (model_volume / build_volume) * 100
  { fits := fits
    model_dimensions_mm :=
      { width := width_mm, depth := depth_mm, height := height_mm }
    model_volume_mm3 := model_volume
    build_volume_mm3 := build_volume
    utilization_percent := utilization_percent
    clearance_mm :=
      { width := BUILD_VOLUME_WIDTH - width_mm
        depth := BUILD_VOLUME_DEPTH - depth_mm
        height := BUILD_VOLUME_HEIGHT - height_mm } }

/-- A `{"min": _, "max": _, "recommended": _}` sub-dictionary of a
material profile. -/
structure SettingRange where
  min : ℤ
  max : ℤ
  recommended : ℤ
  deriving DecidableEq, Repr

/-- One value of the `materials` dictionary in `get_material_settings`. -/
structure MaterialProfile where
  hotend_temp_c : SettingRange
  bed_temp_c : SettingRange
  print_speed_mm_s : SettingRange
  enclosure_required : Bool
  notes : String
  deriving DecidableEq, Repr

/-- The `materials` dictionary literal of `get_material_settings`
(lines 347-383), in insertion order, as an association list. -/
def materials : List (String × MaterialProfile) :=
  [ ("PLA",
     { hotend_temp_c := { min := 190, max := 220, recommended := 210 }
       bed_temp_c := { min := 50, max := 70, recommended := 60 }
       print_speed_mm_s := { min := 40, max := 200, recommended := 100 }
       enclosure_required := false
       notes := "Easy to print, good for beginners" })
  , ("PETG",
     { hotend_temp_c := { min := 220, max := 250, recommended := 235 }
       bed_temp_c := { min := 70, max := 90, recommended := 80 }
       print_speed_mm_s := { min := 30, max := 150, recommended := 80 }
       enclosure_required := false
       notes := "Strong and durable, slight stringing" })
  , ("ABS",
     { hotend_temp_c := { min := 230, max := 260, recommended := 245 }
       bed_temp_c := { min := 80, max := 100, recommended := 90 }
       print_speed_mm_s := { min := 40, max := 180, recommended := 100 }
       enclosure_required := true
       notes := "Requires enclosed chamber, strong parts" })
  , ("ASA",
     { hotend_temp_c := { min := 240, max := 270, recommended := 255 }
       bed_temp_c := { min := 90, max := 100, recommended := 95 }
       print_speed_mm_s := { min := 40, max := 180, recommended := 100 }
       enclosure_required := true
       notes := "UV resistant, similar to ABS" })
  , ("TPU",
     { hotend_temp_c := { min := 210, max := 240, recommended := 225 }
       bed_temp_c := { min := 40, max := 60, recommended := 50 }
       print_speed_mm_s := { min := 20, max := 60, recommended := 30 }
       enclosure_required := false
       notes := "Flexible, print slowly with direct drive" })
  ]

/-- Python's `str.upper()` on the ASCII names used here: upper-case every
character of the string.  (Defined over the character list so that it is
structurally recursive and kernel-reducible.) -/
def pyUpper (s : String) : String :=
  ⟨s.data.map Char.toUpper⟩

/-- Shallow embedding of `get_material_settings(material)` from
`P1S_Python_Examples.py`, lines 337-385: `materials.get(material.upper(),
None)`, i.e. a key lookup of the upper-cased name in the dictionary, with
`None` (here `none`) for a missing key. -/
def get_material_settings (material : String) : Option MaterialProfile :=
  materials.lookup (pyUpper material)

/-! ### Helper lemmas -/

/-- Unfolding of the membership hypothesis used by the lookup lemmas. -/
theorem materials_keys : materials.map Prod.fst = ["PLA", "PETG", "ABS", "ASA", "TPU"] := rfl

/-! ### Claims -/

/-- C1: for every model-dimensions triple, `calculate_print_volume` returns
`fits = true` iff `width ≤ 256 ∧ depth ≤ 256 ∧ height ≤ 256` — a per-axis
comparison against the fixed 256×256×256 envelope, with no rotation; in
particular every triple that is at most 256 on each axis fits. -/
theorem C1_fits_iff_within_envelope (w d h : ℚ) :
    (calculate_print_volume w d h).fits = true ↔ (w ≤ 256 ∧ d ≤ 256 ∧ h ≤ 256) := by
  simp [calculate_print_volume, BUILD_VOLUME_WIDTH, BUILD_VOLUME_DEPTH,
    BUILD_VOLUME_HEIGHT, and_assoc]

/-- Witness for C1 at the concrete triple (50, 50, 30). -/
theorem C1_witness : (calculate_print_volume 50 50 30).fits = true :=
  (C1_fits_iff_within_envelope 50 50 30).mpr (by norm_num)

/-- C2: the `utilization_percent` field always equals
`(w*d*h) / (256*256*256) * 100`, and it is not clamped at 100: at
(300, 300, 300) the model does not fit yet utilization exceeds 100. -/
theorem C2_utilization_formula_unclamped :
    (∀ w d h : ℚ,
        (calculate_print_volume w d h).utilization_percent = w * d * h / (256 * 256 * 256) * 100)
    ∧ (calculate_print_volume 300 300 300).fits = false
    ∧ 100 < (calculate_print_volume 300 300 300).utilization_percent := by
  refine ⟨fun w d h => ?_, by decide, ?_⟩
  · simp [calculate_print_volume, BUILD_VOLUME_WIDTH, BUILD_VOLUME_DEPTH, BUILD_VOLUME_HEIGHT]
  · norm_num [calculate_print_volume, BUILD_VOLUME_WIDTH, BUILD_VOLUME_DEPTH, BUILD_VOLUME_HEIGHT]

/-- C3: every clearance component equals 256 minus the corresponding model
dimension, and whenever a model axis exceeds 256 the result has
`fits = false` and that axis's clearance component is negative. -/
theorem C3_clearance_and_overflow (w d h : ℚ) :
    (calculate_print_volume w d h).clearance_mm = ⟨256 - w, 256 - d, 256 - h⟩
    ∧ (256 < w → (calculate_print_volume w d h).fits = false
        ∧ (calculate_print_volume w d h).clearance_mm.width < 0)
    ∧ (256 < d → (calculate_print_volume w d h).fits = false
        ∧ (calculate_print_volume w d h).clearance_mm.depth < 0)
    ∧ (256 < h → (calculate_print_volume w d h).fits = false
        ∧ (calculate_print_volume w d h).clearance_mm.height < 0) := by
  refine ⟨rfl, fun hw => ⟨?_, ?_⟩, fun hd => ⟨?_, ?_⟩, fun hh => ⟨?_, ?_⟩⟩ <;>
    simp [calculate_print_volume, BUILD_VOLUME_WIDTH, BUILD_VOLUME_DEPTH, BUILD_VOLUME_HEIGHT] <;>
    first
      | linarith
      | intro _ _ <;> linarith

/-- Witness for C3 at the concrete triple (300, 10, 10): the width axis
overflows, so the result does not fit and the width clearance is negative. -/
theorem C3_witness :
    (calculate_print_volume 300 10 10).fits = false
    ∧ (calculate_print_volume 300 10 10).clearance_mm.width < 0 :=
  (C3_clearance_and_overflow 300 10 10).2.1 (by norm_num)

/-- C4: material lookup is case-insensitive exact matching against the key
set {PLA, PETG, ABS, ASA, TPU}, with no trimming and no partial matching:
`"pla"` finds the same profile as `"PLA"`, `"PLA "` (trailing space) finds
nothing, and in general a name is found exactly when its upper-cased form
is one of the five keys. -/
theorem C4_case_insensitive_exact_match :
    get_material_settings "pla" = get_material_settings "PLA"
    ∧ (get_material_settings "PLA").isSome = true
    ∧ get_material_settings "PLA " = none
    ∧ ∀ s : String,
        (get_material_settings s).isSome = true ↔
          pyUpper s ∈ ["PLA", "PETG", "ABS", "ASA", "TPU"] := by
  refine ⟨rfl, rfl, rfl, fun s => ?_⟩
  simp only [get_material_settings, materials, List.lookup]
  split <;> simp_all <;> (try split) <;> simp_all <;> (try split) <;> simp_all <;>
    (try split) <;> simp_all <;> (try split) <;> simp_all

/-- C5: for every input string whose upper-cased form is not one of the
five table keys, `get_material_settings` returns `none` (Python's `None`,
the not-found signal); the function is total, so this is its only error
behavior. -/
theorem C5_unknown_material_is_none (s : String)
    (hs : pyUpper s ∉ ["PLA", "PETG", "ABS", "ASA", "TPU"]) :
    get_material_settings s = none := by
  simp only [List.mem_cons, List.not_mem_nil, or_false, not_or] at hs
  obtain ⟨h1, h2, h3, h4, h5⟩ := hs
  have e1 : (pyUpper s == "PLA") = false := beq_eq_false_iff_ne.mpr h1
  have e2 : (pyUpper s == "PETG") = false := beq_eq_false_iff_ne.mpr h2
  have e3 : (pyUpper s == "ABS") = false := beq_eq_false_iff_ne.mpr h3
  have e4 : (pyUpper s == "ASA") = false := beq_eq_false_iff_ne.mpr h4
  have e5 : (pyUpper s == "TPU") = false := beq_eq_false_iff_ne.mpr h5
  simp [get_material_settings, materials, List.lookup, e1, e2, e3, e4, e5]

/-- Witness for C5 at the concrete input `"nylon"`. -/
theorem C5_witness : get_material_settings "nylon" = none :=
  C5_unknown_material_is_none "nylon" (by decide)

/-- C6: concrete scenario values: (50, 50, 30) yields `fits = true`,
`model_volume_mm3 = 75000` and `utilization_percent ≈ 0.4468` (within
0.001; the exact value is 7500000/16777216 ≈ 0.44703); (300, 300, 300)
yields `fits = false` and every clearance component −44. -/
theorem C6_concrete_scenarios :
    (calculate_print_volume 50 50 30).fits = true
    ∧ (calculate_print_volume 50 50 30).model_volume_mm3 = 75000
    ∧ |(calculate_print_volume 50 50 30).utilization_percent - 4468 / 10000| < 1 / 1000
    ∧ (calculate_print_volume 300 300 300).fits = false
    ∧ (calculate_print_volume 300 300 300).clearance_mm = ⟨-44, -44, -44⟩ := by
  refine ⟨by decide, ?_, ?_, by decide, ?_⟩ <;>
    norm_num [calculate_print_volume, BUILD_VOLUME_WIDTH, BUILD_VOLUME_DEPTH,
      BUILD_VOLUME_HEIGHT, abs_lt]

/-- C7: the material table has exactly the five keys PLA, PETG, ABS, ASA,
TPU in that order, and the ABS profile has `enclosure_required = true`,
recommended hotend temperature 245 and recommended bed temperature 90. -/
theorem C7_five_entries_and_abs_profile :
    materials.map Prod.fst = ["PLA", "PETG", "ABS", "ASA", "TPU"]
    ∧ ∃ p : MaterialProfile,
        get_material_settings "ABS" = some p
        ∧ p.enclosure_required = true
        ∧ p.hotend_temp_c.recommended = 245
        ∧ p.bed_temp_c.recommended = 90 := by
  exact ⟨materials_keys, ⟨_, rfl, rfl, rfl, rfl⟩⟩

/-- C8: `calculate_print_volume` is deterministic and stateless: two calls
with identical input dimensions return identical result records (in the
embedding the function takes nothing but its three arguments, so there is
no hidden state to depend on). -/
theorem C8_deterministic (w1 d1 h1 w2 d2 h2 : ℚ)
    (hw : w1 = w2) (hd : d1 = d2) (hh : h1 = h2) :
    calculate_print_volume w1 d1 h1 = calculate_print_volume w2 d2 h2 := by
  rw [hw, hd, hh]

/-- Witness for C8 at the concrete triple (50, 50, 30). -/
theorem C8_witness :
    calculate_print_volume 50 50 30 = calculate_print_volume 50 50 30 :=
  C8_deterministic 50 50 30 50 50 30 rfl rfl rfl

/-- C9: the result's `build_volume_mm3` is always the constant
16777216 = 256³ and `model_dimensions_mm` echoes the three inputs
unchanged; the envelope is a local constant of the function body, not a
parameter, so it cannot vary between calls. -/
theorem C9_constant_envelope_and_echo (w d h : ℚ) :
    (calculate_print_volume w d h).build_volume_mm3 = 16777216
    ∧ (calculate_print_volume w d h).model_dimensions_mm = ⟨w, d, h⟩ := by
  exact ⟨by norm_num [calculate_print_volume, BUILD_VOLUME_WIDTH, BUILD_VOLUME_DEPTH,
    BUILD_VOLUME_HEIGHT], rfl⟩

/-- C10: `calculate_print_volume` is total over all rational inputs
(zero and negative included): the divisor `build_volume_mm3` is the fixed
nonzero constant, a zero dimension forces `utilization_percent = 0` while
`fits` is still decided only by the per-axis comparisons, and in
particular (0, 0, 0) gives `fits = true` with utilization 0. -/
theorem C10_total_zero_dimension (w d h : ℚ) :
    (calculate_print_volume w d h).build_volume_mm3 ≠ 0
    ∧ ((w = 0 ∨ d = 0 ∨ h = 0) → (calculate_print_volume w d h).utilization_percent = 0)
    ∧ (calculate_print_volume 0 0 0).fits = true
    ∧ (calculate_print_volume 0 0 0).utilization_percent = 0 := by
  refine ⟨?_, fun hz => ?_, by decide, by norm_num [calculate_print_volume,
    BUILD_VOLUME_WIDTH, BUILD_VOLUME_DEPTH, BUILD_VOLUME_HEIGHT]⟩
  · norm_num [calculate_print_volume, BUILD_VOLUME_WIDTH, BUILD_VOLUME_DEPTH,
      BUILD_VOLUME_HEIGHT]
  · rcases hz with rfl | rfl | rfl <;>
      simp [calculate_print_volume, BUILD_VOLUME_WIDTH, BUILD_VOLUME_DEPTH, BUILD_VOLUME_HEIGHT]

/-- Witness for C10 at the concrete triple (0, 5, 7). -/
theorem C10_witness :
    (calculate_print_volume 0 5 7).build_volume_mm3 ≠ 0
    ∧ (calculate_print_volume 0 5 7).utilization_percent = 0 :=
  ⟨(C10_total_zero_dimension 0 5 7).1,
   (C10_total_zero_dimension 0 5 7).2.1 (Or.inl rfl)⟩
